import Mathlib

/-!
Shallow embedding of the truffle-compile-smartpy adapter (src/index.ts).

The source is a small TypeScript module that orchestrates an external
docker-hosted SmartPy compiler: it filters candidate source paths, runs a
preflight docker check, spawns one compiler process per source file,
reconciles the build directory's output artifacts into per-contract records,
and aggregates them into a result object keyed by logical contract name.

The embedding models:
  - the Node path helpers actually used (posix path.normalize, path.basename,
    path.extname) as executable Lean functions;
  - execSmartPy as a function from the invocation's inputs (source path,
    entry-point argument, options) and the observed subprocess behaviour
    (exit code, captured stderr) to an outcome, together with a trace of
    filesystem/process events in the order the Node event loop performs them;
  - the artifact reconciliation loop of compileAll as a fold over the build
    directory listing;
  - compileAll / compileSmartPy / compile.necessary as functions that also
    report which side effects happened (preflight runs, spawned compiles).

External collaborators are passed as parameters at their interface boundary:
the JSON.parse-then-JSON.stringify canonicalization used on compiled program
files (jsonCanon), the minimatch glob test used for filtering
(matchesPattern), the filesystem contents observed per source file (env), and
the staleness set computed by the Profiler collaborator (updated).
-/

namespace SmartPy

/-- Char-list test: s starts with pat. -/
def charsStartWith : List Char → List Char → Bool
  | _, [] => true
  | [], _ :: _ => false
  | b :: ss, a :: ps => a = b && charsStartWith ss ps

/-- Char-list test: pat occurs somewhere in s. -/
def charsContain : List Char → List Char → Bool
  | [], pat => pat.isEmpty
  | s@(_ :: ss), pat => charsStartWith s pat || charsContain ss pat

/-- Char-list test: s ends with pat. -/
def charsEndWith (s pat : List Char) : Bool :=
  charsStartWith s.reverse pat.reverse

/-- JS String.prototype.includes: true iff the pattern occurs as a substring
(the source only ever searches for ".py", ".tz.json", ".tz"). -/
def jsIncludes (s pat : String) : Bool := charsContain s.toList pat.toList

/-- Last path segment of a posix path: trailing slashes dropped, then the part
after the last slash (Node path.posix.basename without an extension
argument). -/
def baseSegment (p : String) : String :=
  let rs := p.toList.reverse.dropWhile (· = '/')
  String.mk ((rs.takeWhile (· ≠ '/')).reverse)

/-- Node path.posix.basename with an extension argument: the last segment,
with the extension suffix stripped when it matches and does not make up the
whole segment.  When the extension equals the entire path argument the result
is empty, as in Node. -/
def basename (p ext : String) : String :=
  if ext ≠ "" ∧ ext = p then ""
  else
    let base := baseSegment p
    if ext ≠ "" ∧ base ≠ ext ∧ charsEndWith base.toList ext.toList then
      String.mk (base.toList.take (base.toList.length - ext.toList.length))
    else base

/-- State-machine scan of Node path.posix.extname, processed right to left
over (index, char) pairs.  Returns (startDot, endIdx, preDotState,
startPart), mirroring the variables of the Node implementation; the scan
stops at the first slash left of the basename. -/
def extScan : List (Nat × Char) → Option Nat → Option Nat → Int → Nat →
    Option Nat × Option Nat × Int × Nat
  | [], startDot, endIdx, preDotState, startPart =>
      (startDot, endIdx, preDotState, startPart)
  | (i, c) :: rest, startDot, endIdx, preDotState, startPart =>
      if c = '/' then
        match endIdx with
        | some _ => (startDot, endIdx, preDotState, i + 1)
        | none => extScan rest startDot endIdx preDotState startPart
      else
        let endIdx' := match endIdx with | none => some (i + 1) | some e => some e
        if c = '.' then
          match startDot with
          | none => extScan rest (some i) endIdx' preDotState startPart
          | some _ =>
              extScan rest startDot endIdx'
                (if preDotState ≠ 1 then 1 else preDotState) startPart
        else
          extScan rest startDot endIdx'
            (if startDot.isSome then -1 else preDotState) startPart

/-- Node path.posix.extname: the substring of the basename from its last dot,
with Node's special cases (no dot, leading dot only, dot-only names) giving
the empty string. -/
def extname (p : String) : String :=
  let cs := p.toList
  let scan := extScan cs.enum.reverse none none 0 0
  match scan.1, scan.2.1 with
  | some d, some e =>
      if scan.2.2.1 = 0 ∨ (scan.2.2.1 = 1 ∧ d = e - 1 ∧ d = scan.2.2.2 + 1) then ""
      else String.mk ((cs.drop d).take (e - d))
  | _, _ => ""

/-- Segment resolution of Node's normalizeString: drops empty and "." path
segments, resolves ".." against the accumulated stack (acc holds resolved
segments in reverse order), and keeps ".." segments when the path is relative
(allowAboveRoot) and there is nothing left to pop. -/
def normSegsGo (allowAboveRoot : Bool) : List String → List String → List String
  | [], acc => acc
  | s :: rest, acc =>
      if s = "" ∨ s = "." then normSegsGo allowAboveRoot rest acc
      else if s = ".." then
        match acc with
        | [] =>
            normSegsGo allowAboveRoot rest (if allowAboveRoot then [".."] else [])
        | a :: as =>
            if a = ".." then normSegsGo allowAboveRoot rest (".." :: acc)
            else normSegsGo allowAboveRoot rest as
      else normSegsGo allowAboveRoot rest (s :: acc)

/-- Split a char list into the segments between slashes. -/
def splitSlash : List Char → List Char → List String
  | [], cur => [String.mk cur.reverse]
  | c :: rest, cur =>
      if c = '/' then String.mk cur.reverse :: splitSlash rest []
      else splitSlash rest (c :: cur)

/-- Join segments with slashes. -/
def joinSlash : List String → String
  | [] => ""
  | [s] => s
  | s :: rest => s ++ "/" ++ joinSlash rest

/-- Node path.posix.normalize: resolves "." and ".." segments, collapses
repeated slashes, and preserves absoluteness and a trailing slash. -/
def pathNormalize (p : String) : String :=
  if p = "" then "."
  else
    let cs := p.toList
    let isAbs : Bool := match cs with | '/' :: _ => true | _ => false
    let trailingSep : Bool := match cs.reverse with | '/' :: _ => true | _ => false
    let core := joinSlash (normSegsGo (!isAbs) (splitSlash cs []) []).reverse
    if core = "" then
      if isAbs then "/" else if trailingSep then "./" else "."
    else
      let core := if trailingSep then core ++ "/" else core
      if isAbs then "/" ++ core else core

/-- The regex replace of execSmartPy line 115: every backslash becomes a
forward slash. -/
def replaceBackslashes (s : String) : String :=
  String.mk (s.toList.map (fun c => if c = '\\' then '/' else c))

/-- ANSI red wrapper of the colors library, as used by the source for error
messages. -/
def colorsRed (s : String) : String := "\x1b[31m" ++ s ++ "\x1b[39m"

/-- Compiler identity constant of src/index.ts (lines 12-15): note the
version field records image tag 0.0.2. -/
structure CompilerId where
  name : String
  version : String
deriving Repr, DecidableEq

def compiler : CompilerId :=
  { name := "smartpy", version := "trufflesuite/smartpy-basic:0.0.2" }

/-- Shell command run by checkSmartPy (line 83) as the preflight check. -/
def checkSmartPyCommand : String :=
  "docker run --rm -i trufflesuite/smartpy-basic:0.0.1 --help"

/-- Relevant fields of the TruffleConfig options object.  entryArg models
options._[0] (the optional entry-point override from the CLI); quiet and
strict are tri-state because a JS flag can also be undefined. -/
structure Options where
  working_directory : String
  contracts_build_directory : String
  paths : List String
  entryArg : Option String
  quiet : Option Bool
  strict : Option Bool
deriving Repr, DecidableEq

/-- One entry of the build-output directory listing: file name and its
content. -/
structure DirEntry where
  name : String
  content : String
deriving Repr, DecidableEq

/-- Observed environment for one source file's compilation: whether the build
directory already exists when execSmartPy checks, the subprocess exit code
and captured stderr, the text content of the source file at that path, and
the build directory listing after the subprocess has run. -/
structure FileRun where
  dirExists : Bool
  exitCode : Int
  stderr : String
  sourceText : String
  buildDirContents : List DirEntry
deriving Repr, DecidableEq

/-- Filesystem/process events of one execSmartPy call, in the order the Node
event loop performs them. -/
inductive FsEvent where
  | existsCheck (dir : String) (found : Bool)
  | mkdirpStart (dir : String)
  | mkdirpComplete (dir : String)
  | spawnProc (cmd : String) (args : List String)
deriving Repr, DecidableEq

/-- Result of one execSmartPy call: the ordered event trace, the argument
vector passed to the spawned process, and the settled promise outcome
(reject message or resolved contract name). -/
structure ExecModel where
  trace : List FsEvent
  spawnArgs : List String
  outcome : Except String String
deriving Repr

/-- Embedding of execSmartPy (src/index.ts lines 96-159).  The promisified
mkdirp call at line 123 is not awaited, so when the directory is absent its
completion is scheduled on a later event-loop turn and the synchronous
spawn() at line 126 runs first; the trace records that ordering.  The close
handler (lines 147-157) rejects when the exit code is nonzero or any stderr
was captured (the strict option is never consulted), and otherwise resolves
with the contract name; in JS the first settlement wins, so the unguarded
resolve after reject is a no-op. -/
def execSmartPy (sourcePath : String) (entryPoint : Option String)
    (options : Options) (run : FileRun) : ExecModel :=
  let currentProjectWorkingDirectory := pathNormalize options.working_directory
  let fullInternalSourcePath := replaceBackslashes (pathNormalize sourcePath)
  let extension := extname sourcePath
  let contractName := basename sourcePath extension
  let entryExpr :=
    (match entryPoint with
     | some e => if e = "" then contractName else e
     | none => contractName) ++ "()"
  let args := ["run", "-v",
    currentProjectWorkingDirectory ++ ":" ++ currentProjectWorkingDirectory,
    "-w", currentProjectWorkingDirectory, "--rm", "-i",
    "trufflesuite/smartpy-basic:0.0.1", "compile",
    fullInternalSourcePath, entryExpr, options.contracts_build_directory]
  let trace :=
    [FsEvent.existsCheck options.contracts_build_directory run.dirExists]
    ++ (if run.dirExists then []
        else [FsEvent.mkdirpStart options.contracts_build_directory])
    ++ [FsEvent.spawnProc "docker" args]
    ++ (if run.dirExists then []
        else [FsEvent.mkdirpComplete options.contracts_build_directory])
  let outcome :=
    if run.exitCode ≠ 0 ∨ run.stderr ≠ "" then
      Except.error (run.stderr ++ "\n" ++
        colorsRed ("Compilation of " ++ sourcePath ++ " failed. See above."))
    else Except.ok contractName
  { trace := trace, spawnArgs := args, outcome := outcome }

/-- Mutable state of the reconciliation forEach in compileAll (lines
180-207): the two captured fields, plus bookkeeping of which directory
entries were left in place, deleted, and read. -/
structure RecState where
  michelson : Option String
  initialStorage : Option String
  remaining : List DirEntry
  deleted : List String
  readFiles : List String
deriving Repr, DecidableEq

def recInit : RecState :=
  { michelson := none, initialStorage := none, remaining := [], deleted := [],
    readFiles := [] }

/-- One iteration of the reconciliation forEach (lines 187-207), classifying
a directory entry by substring tests in the source's order: ".py" is deleted
unread; ".tz.json" is read, canonicalized through jsonCanon (the JSON.parse
then JSON.stringify composite), stored as michelson, and deleted; ".tz" is
deleted, and additionally read into initialStorage when the file name is
exactly "contractStorage.tz"; anything else is left untouched. -/
def reconcileStep (jsonCanon : String → String) (st : RecState) (e : DirEntry) :
    RecState :=
  if jsIncludes e.name ".py" then
    { st with deleted := st.deleted ++ [e.name] }
  else if jsIncludes e.name ".tz.json" then
    { st with michelson := some (jsonCanon e.content),
              readFiles := st.readFiles ++ [e.name],
              deleted := st.deleted ++ [e.name] }
  else if jsIncludes e.name ".tz" then
    let st' :=
      if e.name = "contractStorage.tz" then
        { st with initialStorage := some e.content,
                  readFiles := st.readFiles ++ [e.name] }
      else st
    { st' with deleted := st'.deleted ++ [e.name] }
  else
    { st with remaining := st.remaining ++ [e] }

/-- The whole reconciliation pass over the build directory listing. -/
def reconcile (jsonCanon : String → String) (entries : List DirEntry) : RecState :=
  entries.foldl (reconcileStep jsonCanon) recInit

/-- A contractDefinition object as built at lines 209-217. -/
structure ContractDef where
  contractName : String
  abi : List String
  initialStorage : Option String
  sourcePath : String
  source : String
  michelson : Option String
  compiler : CompilerId
deriving Repr, DecidableEq

/-- Construction of one contractDefinition from the reconciliation state and
the independently read source text (lines 178-217). -/
def mkContractDef (contractName : String) (st : RecState)
    (sourcePath sourceContents : String) : ContractDef :=
  { contractName := contractName, abi := [],
    initialStorage := st.initialStorage, sourcePath := sourcePath,
    source := sourceContents, michelson := st.michelson,
    compiler := SmartPy.compiler }

/-- JS object property assignment on a string-keyed object modelled as an
insertion-ordered association list: assigning an existing key replaces its
value in place, a new key is appended. -/
def objInsert (m : List (String × ContractDef)) (k : String) (v : ContractDef) :
    List (String × ContractDef) :=
  if m.any (fun p => p.1 = k) then
    m.map (fun p => if p.1 = k then (k, v) else p)
  else m ++ [(k, v)]

/-- The result-aggregation reduce of compileAll (lines 222-226). -/
def aggregate (contracts : List ContractDef) : List (String × ContractDef) :=
  contracts.foldl (fun m c => objInsert m c.contractName c) []

/-- Lookup in the aggregated result object. -/
def objGet (m : List (String × ContractDef)) (k : String) : Option ContractDef :=
  (m.find? (fun p => p.1 = k)).map (fun p => p.2)

/-- The per-file loop of compileAll (lines 170-220): on a failed invocation
the error is returned immediately (first failure short-circuits); on success
the source file is read, the build directory reconciled, and the contract
record accumulated.  The second component lists the source paths for which a
compiler process was actually spawned, in order. -/
def compileAllGo (jsonCanon : String → String) (env : String → FileRun)
    (entryPoint : Option String) (options : Options) :
    List String → List ContractDef →
    Except String (List ContractDef) × List String
  | [], contracts => (Except.ok contracts, [])
  | sourcePath :: rest, contracts =>
      let ex := execSmartPy sourcePath entryPoint options (env sourcePath)
      match ex.outcome with
      | Except.error e => (Except.error e, [sourcePath])
      | Except.ok contractName =>
          let st := reconcile jsonCanon (env sourcePath).buildDirContents
          let contract :=
            mkContractDef contractName st sourcePath (env sourcePath).sourceText
          let next :=
            compileAllGo jsonCanon env entryPoint options rest
              (contracts ++ [contract])
          (next.1, sourcePath :: next.2)

/-- Caller-visible output of compileAll / compileSmartPy, with effect
counters: the callback payload (error, or the aggregated result object plus
echoed paths), how many preflight checks ran, and which compiles were
spawned. -/
structure PipelineOut where
  result : Except String (List (String × ContractDef))
  paths : List String
  preflightRuns : Nat
  spawned : List String
deriving Repr

/-- Embedding of compileAll (lines 162-230).  The entry point override is
options._[0] || undefined, so an empty string degrades to undefined; display
logging has no effect on the result and is elided. -/
def compileAll (jsonCanon : String → String) (env : String → FileRun)
    (options : Options) : PipelineOut :=
  let entryPoint :=
    match options.entryArg with
    | some e => if e = "" then none else some e
    | none => none
  let go := compileAllGo jsonCanon env entryPoint options options.paths []
  match go.1 with
  | Except.error e =>
      { result := Except.error e, paths := options.paths,
        preflightRuns := 0, spawned := go.2 }
  | Except.ok contracts =>
      { result := Except.ok (aggregate contracts),
        paths := options.paths, preflightRuns := 0, spawned := go.2 }

/-- Embedding of compileSmartPy (lines 233-247): filter the candidate paths
through the minimatch glob test (passed as a parameter at the collaborator
boundary), return an empty result untouched when nothing matches, otherwise
run the docker preflight check and then compileAll.  checkOk and checkStderr
describe the observed behaviour of the preflight docker run. -/
def compileSmartPy (matchesPattern : String → Bool) (checkOk : Bool)
    (checkStderr : String) (jsonCanon : String → String)
    (env : String → FileRun) (options : Options) : PipelineOut :=
  let paths := options.paths.filter matchesPattern
  if paths.isEmpty then
    { result := Except.ok [], paths := [], preflightRuns := 0, spawned := [] }
  else if !checkOk then
    { result := Except.error
        (colorsRed "Error executing SmartPy-Basic:" ++ "\n" ++ checkStderr),
      paths := [], preflightRuns := 1, spawned := [] }
  else
    let out := compileAll jsonCanon env { options with paths := paths }
    { out with preflightRuns := 1 }

/-- Embedding of compile.necessary (lines 48-61): updated is the stale set
computed by the Profiler collaborator; when it is empty and quiet is not
exactly true the callback returns an empty result directly, otherwise the
stale set becomes options.paths and the request is forwarded to
compileSmartPy (compile.with_dependencies). -/
def compileNecessary (updated : List String) (matchesPattern : String → Bool)
    (checkOk : Bool) (checkStderr : String) (jsonCanon : String → String)
    (env : String → FileRun) (options : Options) : PipelineOut :=
  if updated.isEmpty ∧ options.quiet ≠ some true then
    { result := Except.ok [], paths := [], preflightRuns := 0, spawned := [] }
  else
    compileSmartPy matchesPattern checkOk checkStderr jsonCanon env
      { options with paths := updated }

end SmartPy

namespace SmartPy

/-- Options used for the claim C1 failing-input evaluation: strict is
explicitly false. -/
def c1Opts : Options :=
  { working_directory := "/proj", contracts_build_directory := "/proj/build",
    paths := ["/proj/contracts/a.py"], entryArg := none, quiet := none,
    strict := some false }

/-- Claim C1 (code bug evaluation): with the strict flag explicitly false, an
invocation whose subprocess exits 0 but wrote a warning to stderr is still
rejected with the compile error message — the implementation never consults
the strict option, contradicting its own documentation comment that warnings
become errors only under strict mode. -/
theorem c1_strict_false_warning_still_fails :
    (execSmartPy "/proj/contracts/a.py" none c1Opts
      { dirExists := true, exitCode := 0,
        stderr := "warning: deprecated construct", sourceText := "",
        buildDirContents := [] }).outcome =
      Except.error ("warning: deprecated construct" ++ "\n" ++
        colorsRed ("Compilation of " ++ "/proj/contracts/a.py" ++
          " failed. See above.")) := by
  rfl

/-- Claim C5: the compiler subprocess receives exactly the discrete tokens
run, -v hostDir:hostDir (the same normalized working directory on both
sides), -w hostDir, --rm, -i, the image tag, compile, the normalized source
path with backslashes replaced by forward slashes, the entry expression
(the override followed by parentheses when one is supplied, else the logical
name — basename with extension stripped — followed by parentheses), and the
build output directory. -/
theorem c5_spawn_argument_vector (sourcePath : String)
    (entryPoint : Option String) (options : Options) (run : FileRun)
    (h : ∀ e, entryPoint = some e → e ≠ "") :
    (execSmartPy sourcePath entryPoint options run).spawnArgs =
      ["run", "-v",
       pathNormalize options.working_directory ++ ":" ++
         pathNormalize options.working_directory,
       "-w", pathNormalize options.working_directory, "--rm", "-i",
       "trufflesuite/smartpy-basic:0.0.1", "compile",
       replaceBackslashes (pathNormalize sourcePath),
       (match entryPoint with
        | some e => e
        | none => basename sourcePath (extname sourcePath)) ++ "()",
       options.contracts_build_directory] := by
  cases entryPoint with
  | none => rfl
  | some e => simp [execSmartPy, h e rfl]

/-- Options used for the claim C5 witness. -/
def c5Opts : Options :=
  { working_directory := "/proj", contracts_build_directory := "/proj/build",
    paths := ["/proj/./contracts/x.py"], entryArg := none, quiet := none,
    strict := none }

/-- FileRun used for the claim C5 witness. -/
def c5Run : FileRun :=
  { dirExists := true, exitCode := 0, stderr := "", sourceText := "",
    buildDirContents := [] }

/-- Witness for claim C5 at a concrete input: the dot segment of the source
path is resolved away and the entry expression defaults to the logical
name. -/
theorem c5_spawn_argument_vector_witness :
    (execSmartPy "/proj/./contracts/x.py" none c5Opts c5Run).spawnArgs =
      ["run", "-v", "/proj:/proj", "-w", "/proj", "--rm", "-i",
       "trufflesuite/smartpy-basic:0.0.1", "compile", "/proj/contracts/x.py",
       "x()", "/proj/build"] :=
  (c5_spawn_argument_vector "/proj/./contracts/x.py" none c5Opts c5Run
    (fun _ he => nomatch he)).trans (by rfl)

/-- Claim C6: with an empty stale set from the change detector, the
compile-necessary entry point returns an empty result object with an empty
path list, runs no preflight check and spawns no compiler process, whatever
the quiet flag is (true, false, or undefined). -/
theorem c6_empty_stale_set_is_noop (matchesPattern : String → Bool)
    (checkOk : Bool) (checkStderr : String) (jsonCanon : String → String)
    (env : String → FileRun) (options : Options) :
    compileNecessary [] matchesPattern checkOk checkStderr jsonCanon env
        options =
      { result := Except.ok [], paths := [], preflightRuns := 0,
        spawned := [] } := by
  by_cases h : options.quiet = some true
  · simp [compileNecessary, h, compileSmartPy]
  · simp [compileNecessary, h]

/-- Options used for the claim C8 failing-input evaluation. -/
def c8Opts : Options :=
  { working_directory := "/proj", contracts_build_directory := "/proj/build",
    paths := ["/proj/contracts/x.py"], entryArg := none, quiet := none,
    strict := none }

/-- Claim C8 (code bug evaluation): when the build directory is absent, the
event trace shows the process spawn happening before the recursive directory
creation completes — the promisified mkdirp call is never awaited, so the
subprocess is launched while the directory may not yet exist, contradicting
the claim that the directory exists before every launch. -/
theorem c8_spawn_precedes_mkdirp_completion :
    (execSmartPy "/proj/contracts/x.py" none c8Opts
      { dirExists := false, exitCode := 0, stderr := "", sourceText := "",
        buildDirContents := [] }).trace =
      [FsEvent.existsCheck "/proj/build" false,
       FsEvent.mkdirpStart "/proj/build",
       FsEvent.spawnProc "docker"
         ["run", "-v", "/proj:/proj", "-w", "/proj", "--rm", "-i",
          "trufflesuite/smartpy-basic:0.0.1", "compile",
          "/proj/contracts/x.py", "x()", "/proj/build"],
       FsEvent.mkdirpComplete "/proj/build"] := by
  rfl

/-- Claim C9: artifact classification works by substring inclusion over the
whole file name, so any directory entry whose name contains ".py" anywhere is
handled by the source-echo rule — deleted without reading it or capturing
any field — even when the name also carries a recognized compiled-program or
raw-output suffix. -/
theorem c9_py_substring_classified_as_source_echo
    (jsonCanon : String → String) (st : RecState) (e : DirEntry)
    (h : jsIncludes e.name ".py" = true) :
    reconcileStep jsonCanon st e =
      { st with deleted := st.deleted ++ [e.name] } := by
  simp [reconcileStep, h]

/-- Witness for claim C9 at a concrete input: foo.py.tz.json ends in the
compiled-program suffix yet is deleted as a source echo, with no field
captured and the file never read. -/
theorem c9_py_substring_classified_as_source_echo_witness :
    reconcileStep (fun s => s) recInit
        { name := "foo.py.tz.json", content := "prog" } =
      { recInit with deleted := ["foo.py.tz.json"] }
    ∧ jsIncludes "foo.py.tz.json" ".tz.json" = true :=
  ⟨c9_py_substring_classified_as_source_echo (fun s => s) recInit
      { name := "foo.py.tz.json", content := "prog" } (by rfl),
    by rfl⟩

/-- Claim C10: every successfully compiled contract record carries the
constant compiler identity with version tag trufflesuite/smartpy-basic:0.0.2,
while both the preflight command and the spawned compile invocation use the
docker image trufflesuite/smartpy-basic:0.0.1 — the recorded version never
equals the image tag actually invoked. -/
theorem c10_recorded_version_never_matches_invoked_image :
    SmartPy.compiler =
      { name := "smartpy", version := "trufflesuite/smartpy-basic:0.0.2" }
    ∧ (∀ contractName st sourcePath sourceContents,
        (mkContractDef contractName st sourcePath sourceContents).compiler =
          SmartPy.compiler)
    ∧ (∀ sourcePath entryPoint options run,
        (execSmartPy sourcePath entryPoint options run).spawnArgs.get? 7 =
          some "trufflesuite/smartpy-basic:0.0.1")
    ∧ checkSmartPyCommand =
        "docker run --rm -i " ++ "trufflesuite/smartpy-basic:0.0.1" ++
          " --help"
    ∧ SmartPy.compiler.version ≠ "trufflesuite/smartpy-basic:0.0.1" := by
  refine ⟨rfl, fun _ _ _ _ => rfl, fun _ _ _ _ => rfl, rfl, by decide⟩

end SmartPy

namespace SmartPy

/-- Entry predicate: classified as a JSON-encoded compiled program (reached
only when the source-echo rule did not match first). -/
def pJson (e : DirEntry) : Bool :=
  !jsIncludes e.name ".py" && jsIncludes e.name ".tz.json"

/-- Entry predicate: classified as the well-known initial-storage file
(reached only when neither earlier rule matched and the name is exactly
contractStorage.tz). -/
def pStor (e : DirEntry) : Bool :=
  !jsIncludes e.name ".py" && !jsIncludes e.name ".tz.json" &&
    jsIncludes e.name ".tz" && (e.name == "contractStorage.tz")

/-- Name predicate: matched by one of the three recognized artifact classes
in the source's classification order. -/
def recognizedName (n : String) : Bool :=
  jsIncludes n ".py" || jsIncludes n ".tz.json" || jsIncludes n ".tz"

/-- Name predicate: the reconciliation loop reads this file's content
(compiled-program files, and the initial-storage file). -/
def readName (n : String) : Bool :=
  (!jsIncludes n ".py" && jsIncludes n ".tz.json") ||
  (!jsIncludes n ".py" && !jsIncludes n ".tz.json" && jsIncludes n ".tz" &&
    (n == "contractStorage.tz"))

/-- Characterization of the reconciliation fold from any starting state:
deleted names are exactly the recognized entries in order, read names exactly
the compiled-program and initial-storage entries, untouched entries exactly
the unrecognized ones, and the two captured fields are last-write-wins over
their respective entry classes. -/
theorem reconcile_foldl_spec (jsonCanon : String → String)
    (entries : List DirEntry) :
    ∀ st : RecState,
      entries.foldl (reconcileStep jsonCanon) st =
        { michelson := (entries.filter pJson).foldl
            (fun _ e => some (jsonCanon e.content)) st.michelson,
          initialStorage := (entries.filter pStor).foldl
            (fun _ e => some e.content) st.initialStorage,
          remaining :=
            st.remaining ++ entries.filter (fun e => !recognizedName e.name),
          deleted := st.deleted ++
            (entries.filter (fun e => recognizedName e.name)).map
              (fun e => e.name),
          readFiles := st.readFiles ++
            (entries.filter (fun e => readName e.name)).map
              (fun e => e.name) } := by
  induction entries with
  | nil => intro st; simp
  | cons e rest ih =>
      intro st
      rw [List.foldl_cons, ih]
      cases hpy : jsIncludes e.name ".py" with
      | true =>
          simp [reconcileStep, pJson, pStor, recognizedName, readName, hpy,
            List.append_assoc]
      | false =>
          cases htzj : jsIncludes e.name ".tz.json" with
          | true =>
              simp [reconcileStep, pJson, pStor, recognizedName, readName,
                hpy, htzj, List.append_assoc]
          | false =>
              cases htz : jsIncludes e.name ".tz" with
              | true =>
                  by_cases hname : e.name = "contractStorage.tz"
                  · have hcpy : jsIncludes "contractStorage.tz" ".py" = false := rfl
                    have hctzj : jsIncludes "contractStorage.tz" ".tz.json" = false := rfl
                    have hctz : jsIncludes "contractStorage.tz" ".tz" = true := rfl
                    simp [reconcileStep, pJson, pStor, recognizedName,
                      readName, hpy, htzj, htz, hname, hcpy, hctzj, hctz,
                      List.append_assoc]
                  · simp [reconcileStep, pJson, pStor, recognizedName,
                      readName, hpy, htzj, htz, hname, List.append_assoc]
              | false =>
                  simp [reconcileStep, pJson, pStor, recognizedName,
                    readName, hpy, htzj, htz, List.append_assoc]

/-- Claim C7: reconciliation classifies every directory entry by the fixed
rule order source-echo (".py"), then JSON-encoded compiled program
(".tz.json"), then raw program output (".tz") — encoded in the predicates
pJson, pStor, recognizedName and readName — and every entry matching none of
the three classes is left untouched in the directory, neither read nor
captured nor deleted. -/
theorem c7_fixed_order_and_unrecognized_left_untouched
    (jsonCanon : String → String) (entries : List DirEntry) :
    (reconcile jsonCanon entries).deleted =
      (entries.filter (fun e => recognizedName e.name)).map (fun e => e.name)
    ∧ (reconcile jsonCanon entries).readFiles =
      (entries.filter (fun e => readName e.name)).map (fun e => e.name)
    ∧ (reconcile jsonCanon entries).remaining =
      entries.filter (fun e => !recognizedName e.name)
    ∧ (reconcile jsonCanon entries).michelson =
      (entries.filter pJson).foldl (fun _ e => some (jsonCanon e.content)) none
    ∧ (reconcile jsonCanon entries).initialStorage =
      (entries.filter pStor).foldl (fun _ e => some e.content) none := by
  have h := reconcile_foldl_spec jsonCanon entries recInit
  rw [reconcile, h]
  simp [recInit]

end SmartPy

namespace SmartPy

/-- Claim C3: for a single-source request whose subprocess run succeeds and
leaves a source-echo file, a JSON program file and the well-known
contractStorage.tz file in the build directory, the resulting contract record
holds the canonicalized (parse-then-stringify) JSON of the program file as
michelson, the raw storage text as initialStorage, and the text read from the
request's own source path as source — and after reconciliation none of the
three recognized file classes remain in the directory. -/
theorem c3_successful_run_record_and_clean_directory
    (jsonCanon : String → String) (env : String → FileRun) (options : Options)
    (sourcePath echoName echoContent progName progContent storageText : String)
    (hpaths : options.paths = [sourcePath])
    (hexit : (env sourcePath).exitCode = 0)
    (hstderr : (env sourcePath).stderr = "")
    (hdir : (env sourcePath).buildDirContents =
      [{ name := echoName, content := echoContent },
       { name := progName, content := progContent },
       { name := "contractStorage.tz", content := storageText }])
    (hecho : jsIncludes echoName ".py" = true)
    (hprog1 : jsIncludes progName ".py" = false)
    (hprog2 : jsIncludes progName ".tz.json" = true) :
    (compileAll jsonCanon env options).result =
      Except.ok [(basename sourcePath (extname sourcePath),
        { contractName := basename sourcePath (extname sourcePath), abi := [],
          initialStorage := some storageText, sourcePath := sourcePath,
          source := (env sourcePath).sourceText,
          michelson := some (jsonCanon progContent),
          compiler := SmartPy.compiler })]
    ∧ (reconcile jsonCanon (env sourcePath).buildDirContents).remaining = [] := by
  have hcpy : jsIncludes "contractStorage.tz" ".py" = false := rfl
  have hctzj : jsIncludes "contractStorage.tz" ".tz.json" = false := rfl
  have hctz : jsIncludes "contractStorage.tz" ".tz" = true := rfl
  constructor
  · simp [compileAll, hpaths, compileAllGo, execSmartPy, hexit, hstderr, hdir,
      reconcile, reconcileStep, recInit, hecho, hprog1, hprog2, hcpy, hctzj,
      hctz, mkContractDef, aggregate, objInsert]
  · simp [hdir, reconcile, reconcileStep, recInit, hecho, hprog1, hprog2,
      hcpy, hctzj, hctz]

/-- Environment for the claim C3 witness: one source file whose compile run
leaves the three canonical artifacts behind. -/
def c3Env : String → FileRun := fun _ =>
  { dirExists := true, exitCode := 0, stderr := "",
    sourceText := "import smartpy",
    buildDirContents :=
      [{ name := "Counter.py", content := "echo" },
       { name := "Counter.tz.json", content := "PROG" },
       { name := "contractStorage.tz", content := "0" }] }

/-- Options for the claim C3 witness. -/
def c3Opts : Options :=
  { working_directory := "/proj", contracts_build_directory := "/proj/build",
    paths := ["/proj/contracts/Counter.py"], entryArg := none, quiet := none,
    strict := none }

/-- Witness for claim C3 at a concrete input. -/
theorem c3_successful_run_record_and_clean_directory_witness :
    (compileAll (fun s => s) c3Env c3Opts).result =
      Except.ok [("Counter",
        { contractName := "Counter", abi := [], initialStorage := some "0",
          sourcePath := "/proj/contracts/Counter.py",
          source := "import smartpy", michelson := some "PROG",
          compiler := SmartPy.compiler })]
    ∧ (reconcile (fun s => s)
        (c3Env "/proj/contracts/Counter.py").buildDirContents).remaining = [] :=
  c3_successful_run_record_and_clean_directory (fun s => s) c3Env c3Opts
    "/proj/contracts/Counter.py" "Counter.py" "echo" "Counter.tz.json" "PROG"
    "0" rfl rfl rfl rfl (by rfl) (by rfl) (by rfl)

/-- Options for the claim C2 theorems: two distinct source paths with the
same basename foo.py. -/
def c2Opts : Options :=
  { working_directory := "/proj", contracts_build_directory := "/proj/build",
    paths := ["/proj/a/foo.py", "/proj/b/foo.py"], entryArg := none,
    quiet := none, strict := none }

/-- Environment for the claim C2 theorems: both files compile cleanly with
distinguishable source texts. -/
def c2Env : String → FileRun := fun p =>
  if p = "/proj/a/foo.py" then
    { dirExists := true, exitCode := 0, stderr := "", sourceText := "sourceA",
      buildDirContents := [] }
  else
    { dirExists := true, exitCode := 0, stderr := "", sourceText := "sourceB",
      buildDirContents := [] }

/-- Counterexample to claim C2: a request with two distinct source paths of
identical basename does NOT fail — it resolves successfully, and the result
object holds a single record for the shared logical name, the one built from
the later path (the earlier record was silently overwritten). -/
theorem c2_counterexample_no_collision_error :
    (compileAll (fun s => s) c2Env c2Opts).result =
      Except.ok [("foo",
        { contractName := "foo", abi := [], initialStorage := none,
          sourcePath := "/proj/b/foo.py", source := "sourceB",
          michelson := none, compiler := SmartPy.compiler })] := by
  rfl

/-- Claim C2 as amended: when a request holds two source paths with the same
derived logical name and both invocations succeed, the aggregation reduce
silently overwrites the earlier record, leaving a single entry keyed by the
shared name and holding the later path's record; no error is raised. -/
theorem c2_amended_last_record_silently_wins
    (jsonCanon : String → String) (env : String → FileRun) (options : Options)
    (p1 p2 : String)
    (hpaths : options.paths = [p1, p2])
    (hname : basename p1 (extname p1) = basename p2 (extname p2))
    (h1exit : (env p1).exitCode = 0) (h1err : (env p1).stderr = "")
    (h2exit : (env p2).exitCode = 0) (h2err : (env p2).stderr = "") :
    (compileAll jsonCanon env options).result =
      Except.ok [(basename p2 (extname p2),
        mkContractDef (basename p2 (extname p2))
          (reconcile jsonCanon (env p2).buildDirContents) p2
          (env p2).sourceText)] := by
  simp [compileAll, hpaths, compileAllGo, execSmartPy, h1exit, h1err, h2exit,
    h2err, aggregate, objInsert, mkContractDef, hname]

/-- Witness for the amended claim C2 at a concrete input. -/
theorem c2_amended_last_record_silently_wins_witness :
    (compileAll (fun s => s) c2Env c2Opts).result =
      Except.ok [("foo",
        mkContractDef "foo"
          (reconcile (fun s => s) (c2Env "/proj/b/foo.py").buildDirContents)
          "/proj/b/foo.py" (c2Env "/proj/b/foo.py").sourceText)] :=
  c2_amended_last_record_silently_wins (fun s => s) c2Env c2Opts
    "/proj/a/foo.py" "/proj/b/foo.py" rfl (by rfl) (by rfl) (by rfl)
    (by rfl) (by rfl)

end SmartPy

namespace SmartPy

/-- Short-circuit behaviour of the per-file loop: after any run of clean
invocations, the first failing invocation makes the loop return its compile
error immediately, and only the clean run plus the failing file were ever
spawned. -/
theorem compileAllGo_first_failure_short_circuits
    (jsonCanon : String → String) (env : String → FileRun)
    (entryPoint : Option String) (options : Options) (p : String)
    (rest : List String) (hfail : (env p).exitCode ≠ 0) :
    ∀ (pre : List String) (acc : List ContractDef),
      (∀ q ∈ pre, (env q).exitCode = 0 ∧ (env q).stderr = "") →
      compileAllGo jsonCanon env entryPoint options (pre ++ p :: rest) acc =
        (Except.error ((env p).stderr ++ "\n" ++
          colorsRed ("Compilation of " ++ p ++ " failed. See above.")),
         pre ++ [p]) := by
  intro pre
  induction pre with
  | nil =>
      intro acc _
      simp [compileAllGo, execSmartPy, hfail]
  | cons q pre' ih =>
      intro acc hok
      have hq := hok q (by simp)
      have hrest : ∀ r ∈ pre', (env r).exitCode = 0 ∧ (env r).stderr = "" :=
        fun r hr => hok r (by simp [hr])
      simp [compileAllGo, execSmartPy, hq.1, hq.2, ih _ hrest]

/-- Options for the claim C4 theorems: a clean file, then a failing file,
then a further file that must never be compiled. -/
def c4Opts : Options :=
  { working_directory := "/proj", contracts_build_directory := "/proj/build",
    paths := ["/proj/ok.py", "/proj/a.py", "/proj/b.py"], entryArg := none,
    quiet := none, strict := none }

/-- Environment for the claim C4 theorems: /proj/a.py exits 1 with stderr
boom, everything else compiles cleanly. -/
def c4Env : String → FileRun := fun p =>
  if p = "/proj/a.py" then
    { dirExists := true, exitCode := 1, stderr := "boom", sourceText := "srcA",
      buildDirContents := [] }
  else
    { dirExists := true, exitCode := 0, stderr := "", sourceText := "srcOk",
      buildDirContents := [] }

/-- Counterexample to claim C4: the compile error's message is the captured
diagnostics followed by a line naming the failing source path — the
diagnostics are NOT prefixed with the source path; the message starts with
the diagnostics and the path appears only afterwards. -/
theorem c4_counterexample_diagnostics_not_path_prefixed :
    (compileAll (fun s => s) c4Env c4Opts).result =
      Except.error ("boom" ++ "\n" ++
        colorsRed ("Compilation of " ++ "/proj/a.py" ++ " failed. See above."))
    ∧ charsStartWith
        ("boom\n\x1b[31mCompilation of /proj/a.py failed. See above.\x1b[39m").toList
        ("/proj/a.py").toList = false
    ∧ charsStartWith
        ("boom\n\x1b[31mCompilation of /proj/a.py failed. See above.\x1b[39m").toList
        ("boom").toList = true := by
  refine ⟨by rfl, by rfl, by rfl⟩

/-- Claim C4 as amended: a source file whose subprocess exits non-zero makes
the whole operation fail with a compile error carrying the captured
diagnostics verbatim followed by a line naming the exact source path; no
result object is produced (hence no entry for that source), and no
subsequent source file of the request is compiled — only the preceding clean
files and the failing file itself were spawned. -/
theorem c4_amended_nonzero_exit_fails_and_short_circuits
    (jsonCanon : String → String) (env : String → FileRun) (options : Options)
    (pre : List String) (p : String) (rest : List String)
    (hpaths : options.paths = pre ++ p :: rest)
    (hok : ∀ q ∈ pre, (env q).exitCode = 0 ∧ (env q).stderr = "")
    (hfail : (env p).exitCode ≠ 0) :
    (compileAll jsonCanon env options).result =
      Except.error ((env p).stderr ++ "\n" ++
        colorsRed ("Compilation of " ++ p ++ " failed. See above."))
    ∧ (compileAll jsonCanon env options).spawned = pre ++ [p] := by
  have h := compileAllGo_first_failure_short_circuits jsonCanon env
    (match options.entryArg with
     | some e => if e = "" then none else some e
     | none => none) options p rest hfail pre [] hok
  constructor
  · simp [compileAll, hpaths, h]
  · simp [compileAll, hpaths, h]

/-- Witness for the amended claim C4 at a concrete input: the clean file and
the failing file are spawned, the third file is not. -/
theorem c4_amended_nonzero_exit_fails_and_short_circuits_witness :
    (compileAll (fun s => s) c4Env c4Opts).result =
      Except.error ("boom" ++ "\n" ++
        colorsRed ("Compilation of " ++ "/proj/a.py" ++ " failed. See above."))
    ∧ (compileAll (fun s => s) c4Env c4Opts).spawned =
      ["/proj/ok.py", "/proj/a.py"] :=
  c4_amended_nonzero_exit_fails_and_short_circuits (fun s => s) c4Env c4Opts
    ["/proj/ok.py"] "/proj/a.py" ["/proj/b.py"] rfl (by decide) (by decide)

end SmartPy
